import Mathlib

/-!
Verification of the pagination/accumulation logic of `Element451API.py`
(`api_user_search`, `api_data_request`, `api_data_import`).

The HTTP layer is modelled by an oracle: the list of responses the server
returns for successive POST requests.  Each function returns the trace of
issued request payloads (one entry per POST actually made) together with
either the merged result or the error the Python code raises.  Records are
opaque (`Rec := Nat`); response metadata keeps an explicit `Option` for the
`next_last_id` key, so that `del meta["next_last_id"]` can be modelled
faithfully: deleting an absent key is a `KeyError`.  Keys the code never
touches are carried in an `other` field.
-/

namespace Element451

/-- Records are treated as opaque values by the code; `Nat` tokens suffice. -/
abbrev Rec := Nat

/-- The `segment` argument of `api_user_search`: a segment-id string or an
inline filter dict (whose content the code never inspects). -/
inductive SegS where
  | sstr (s : String) : SegS
  | sdict : SegS
deriving DecidableEq, Repr

/-- Metadata of a search response: the optional continuation token
`next_last_id`, the `filtered_total` count, and all remaining keys. -/
structure SearchMeta where
  next_last_id : Option String
  filtered_total : Nat
  other : List (String × String)
deriving DecidableEq, Repr

/-- One HTTP response to a search POST: status code, raw body (used in error
messages), and the parsed JSON `data`/`meta` parts. -/
structure SearchResp where
  status : Nat
  content : String
  data : List Rec
  meta : SearchMeta
deriving DecidableEq, Repr

/-- The JSON object `api_user_search` returns: `data` plus `meta`. -/
structure SearchResult where
  data : List Rec
  meta : SearchMeta
deriving DecidableEq, Repr

/-- The body built by `_create_api_search_payload`:
`{item: {segment, project, last_id}}`. -/
structure SearchPayload where
  segment : SegS
  project : List String
  last_id : String
deriving DecidableEq, Repr

/-- The errors the module raises, as distinguishable values:
blank-argument `Exception`s, the request-failed `Exception`s (carrying the
URL and raw body for exports, the raw body only for imports), the `KeyError`
from `del meta["next_last_id"]`, and exhaustion of the response oracle. -/
inductive ApiErr where
  | invalidArgument (msg : String) : ApiErr
  | upstreamRequestFailed (url : String) (body : String) : ApiErr
  | importFailed (body : String) : ApiErr
  | keyError (key : String) : ApiErr
  | noResponse : ApiErr
deriving DecidableEq, Repr

/-- `https://{client}.{api}/v2/users/export/search` -/
def mkSearchUrl (client api : String) : String :=
  "https://" ++ client ++ "." ++ api ++ "/v2/users/export/search"

/-- The `while run:` loop of `api_user_search`, one recursive call per
iteration, consuming one oracle response per POST.  `acc` is the
`results_data` buffer (`""` = `none`); a page whose meta carries
`next_last_id` is buffered (first such page whole, later ones appended),
and the first page without the token becomes the result: the buffered
records are appended after its own and its `filtered_total` is added to
itself (lines 55-66 of the source). -/
def searchLoop (url : String) (seg : SegS) (proj : List String) :
    String → Option SearchResult → List SearchResp →
    List SearchPayload × Except ApiErr SearchResult
  | lastId, _, [] => ([⟨seg, proj, lastId⟩], Except.error ApiErr.noResponse)
  | lastId, acc, r :: rest =>
    let payload : SearchPayload := ⟨seg, proj, lastId⟩
    if r.status ≠ 200 then
      ([payload], Except.error (ApiErr.upstreamRequestFailed url r.content))
    else
      match r.meta.next_last_id with
      | some nid =>
        let acc' : SearchResult :=
          match acc with
          | none => ⟨r.data, r.meta⟩
          | some rd => ⟨rd.data ++ r.data, rd.meta⟩
        let res := searchLoop url seg proj nid (some acc') rest
        (payload :: res.1, res.2)
      | none =>
        let mergedData : List Rec :=
          match acc with
          | none => r.data
          | some rd => r.data ++ rd.data
        ([payload], Except.ok ⟨mergedData,
          { r.meta with
            filtered_total := r.meta.filtered_total + r.meta.filtered_total }⟩)

/-- `api_user_search` (lines 5-68): blank-argument check, then the
pagination loop starting with `last_id = ""` and an empty buffer. -/
def api_user_search (client api feature : String) (segment : SegS)
    (project : List String) (responses : List SearchResp) :
    List SearchPayload × Except ApiErr SearchResult :=
  if client = "" ∨ api = "" ∨ feature = "" ∨ segment = SegS.sstr "" then
    ([], Except.error (ApiErr.invalidArgument "A required parameter was blank."))
  else
    searchLoop (mkSearchUrl client api) segment project "" none responses

/-- The `segment` argument of `api_data_request`: a segment-id string, a
list of user ids, or anything else (Python is dynamically typed; `dother`
stands for e.g. a dict, which fails the `isinstance` checks). -/
inductive SegD where
  | dstr (s : String) : SegD
  | dlist (l : List String) : SegD
  | dother : SegD
deriving DecidableEq, Repr

/-- A template argument: a template-guid string or an inline column layout
(whose content the code never inspects). -/
abbrev Tmpl := String ⊕ Unit

/-- A loosely typed Python value, needed because `api_data_request` passes
`_create_api_data_payload` its arguments positionally in the list branch,
so string-typed slots can receive a dict and vice versa. -/
inductive PyV where
  | pstr (s : String) : PyV
  | pdict (d : List (String × String)) : PyV
deriving DecidableEq, Repr

/-- Metadata of a data-export response: the `count` field, the optional
`next_last_id` continuation token, and all remaining keys. -/
structure DataMeta where
  count : Nat
  next_last_id : Option String
  other : List (String × String)
deriving DecidableEq, Repr

/-- One HTTP response to a data-export POST. -/
structure DataResp where
  status : Nat
  content : String
  data : List Rec
  meta : DataMeta
deriving DecidableEq, Repr

/-- The JSON object `api_data_request` returns. -/
structure DataResult where
  data : List Rec
  meta : DataMeta
deriving DecidableEq, Repr

/-- The body built by `_create_api_data_payload`:
`{item: {options: {column_key, unwind}, template, users, segment, last_id}}`. -/
structure DataPayload where
  template : Tmpl
  users : List String
  segment : String
  last_id : PyV
  column_key : PyV
  unwind : PyV
deriving DecidableEq, Repr

/-- `_create_api_data_payload` (lines 170-196): a list segment goes to the
`users` slot with `segment` set to `""`; a string segment goes to the
`segment` slot with `users = []`. -/
def create_api_data_payload (template : Tmpl) (segment : String ⊕ List String)
    (last_id : PyV) (column_key : PyV) (unwind : PyV) : DataPayload :=
  match segment with
  | Sum.inr l => ⟨template, l, "", last_id, column_key, unwind⟩
  | Sum.inl s => ⟨template, [], s, last_id, column_key, unwind⟩

/-- `https://{client}.{api}/v2/users/export` -/
def mkDataUrl (client api : String) : String :=
  "https://" ++ client ++ "." ++ api ++ "/v2/users/export"

/-- The loop state of `api_data_request`: for a string segment the current
`last_id_position` cursor string, for a list segment the current numeric
offset. -/
inductive DataMode where
  | mstr (seg : String) (lastId : String) : DataMode
  | mlist (seg : List String) (pos : Nat) : DataMode
deriving DecidableEq, Repr

/-- The merge of one further page into the accumulated base result
(lines 157-165): append the page's records, add its `count`, then
`del all_data_payload_results["meta"]["next_last_id"]` — which raises
`KeyError` when the key is no longer present (it is deleted on the first
merge and never restored).  The error makes the mutated dict unobservable,
so the merge is modelled as a whole returning `Except`. -/
def mergeDataPage (base : DataResult) (r : DataResp) : Except ApiErr DataResult :=
  match base.meta.next_last_id with
  | none => Except.error (ApiErr.keyError "next_last_id")
  | some _ =>
    Except.ok ⟨base.data ++ r.data,
      { count := base.meta.count + r.meta.count, next_last_id := none,
        other := base.meta.other }⟩

/-- The `while run:` loop of `api_data_request` (lines 129-167), one
recursive call per iteration.  List mode: the payload carries the window
`segment[pos : pos+50]` and — by the positional-argument slip in the call at
lines 132-137 — `last_id` receives the `column_key` string, `column_key`
receives the `unwind` dict, and `unwind` the default `{}`; the offset then
advances by 50 and the loop is flagged to stop when it strictly exceeds the
list length.  String mode: the payload carries the segment and the cursor;
a returned `next_last_id` replaces the cursor, its absence stops the loop.
In both modes a non-200 status aborts before the merge; the first page
becomes the base, later pages go through `mergeDataPage`. -/
def dataLoop (url : String) (template : Tmpl) (column_key : String)
    (unwind : List (String × String)) :
    DataMode → Option DataResult → List DataResp →
    List DataPayload × Except ApiErr DataResult
  | DataMode.mlist seg pos, acc, responses =>
    let payload := create_api_data_payload template
      (Sum.inr ((seg.drop pos).take 50))
      (PyV.pstr column_key) (PyV.pdict unwind) (PyV.pdict [])
    let stop : Bool := decide (seg.length < pos + 50)
    match responses with
    | [] => ([payload], Except.error ApiErr.noResponse)
    | r :: rest =>
      if r.status ≠ 200 then
        ([payload], Except.error (ApiErr.upstreamRequestFailed url r.content))
      else
        match acc with
        | none =>
          if stop then ([payload], Except.ok ⟨r.data, r.meta⟩)
          else
            let res := dataLoop url template column_key unwind
              (DataMode.mlist seg (pos + 50)) (some ⟨r.data, r.meta⟩) rest
            (payload :: res.1, res.2)
        | some base =>
          match mergeDataPage base r with
          | Except.error e => ([payload], Except.error e)
          | Except.ok merged =>
            if stop then ([payload], Except.ok merged)
            else
              let res := dataLoop url template column_key unwind
                (DataMode.mlist seg (pos + 50)) (some merged) rest
              (payload :: res.1, res.2)
  | DataMode.mstr seg lastId, acc, responses =>
    let payload := create_api_data_payload template (Sum.inl seg)
      (PyV.pstr lastId) (PyV.pstr column_key) (PyV.pdict unwind)
    match responses with
    | [] => ([payload], Except.error ApiErr.noResponse)
    | r :: rest =>
      if r.status ≠ 200 then
        ([payload], Except.error (ApiErr.upstreamRequestFailed url r.content))
      else
        let mode' : DataMode :=
          match r.meta.next_last_id with
          | some nid => DataMode.mstr seg nid
          | none => DataMode.mstr seg lastId
        let stop : Bool := r.meta.next_last_id.isNone
        match acc with
        | none =>
          if stop then ([payload], Except.ok ⟨r.data, r.meta⟩)
          else
            let res := dataLoop url template column_key unwind
              mode' (some ⟨r.data, r.meta⟩) rest
            (payload :: res.1, res.2)
        | some base =>
          match mergeDataPage base r with
          | Except.error e => ([payload], Except.error e)
          | Except.ok merged =>
            if stop then ([payload], Except.ok merged)
            else
              let res := dataLoop url template column_key unwind
                mode' (some merged) rest
              (payload :: res.1, res.2)

/-- `api_data_request` (lines 81-167): blank check (line 106, where
`segment == ""` only fires for a string segment), `isinstance` dispatch
(lines 113-120), the empty-segment short-circuit (lines 122-124, whose
`segment == ""` half is unreachable because the blank check already raised),
then the pagination loop. -/
def api_data_request (client api feature : String) (segment : SegD)
    (template : Tmpl) (column_key : String) (unwind : List (String × String))
    (responses : List DataResp) :
    List DataPayload × Except ApiErr DataResult :=
  if client = "" ∨ api = "" ∨ feature = "" ∨ segment = SegD.dstr "" ∨
      template = Sum.inl "" then
    ([], Except.error (ApiErr.invalidArgument "A required parameter was blank."))
  else
    match segment with
    | SegD.dother =>
      ([], Except.error (ApiErr.invalidArgument "Not a valid segment or list"))
    | SegD.dlist l =>
      if l = [] then ([], Except.ok ⟨[], ⟨0, none, []⟩⟩)
      else
        dataLoop (mkDataUrl client api) template column_key unwind
          (DataMode.mlist l 0) none responses
    | SegD.dstr s =>
      if s = "" then ([], Except.ok ⟨[], ⟨0, none, []⟩⟩)
      else
        dataLoop (mkDataUrl client api) template column_key unwind
          (DataMode.mstr s "") none responses

/-- One HTTP response to the import POST. -/
structure ImportResp where
  status : Nat
  content : String
deriving DecidableEq, Repr

/-- The body built by `api_data_import`: `{item: {template, items}}`. -/
structure ImportPayload where
  template : Tmpl
  items : PyV
deriving DecidableEq, Repr

/-- `api_data_import` (lines 199-230): blank check, a single POST, success
only on HTTP 201 (returning the raw body), any other status raising an
`Exception` carrying the raw body. -/
def api_data_import (client api feature : String) (template : Tmpl)
    (items : PyV) (response : ImportResp) :
    List ImportPayload × Except ApiErr String :=
  if client = "" ∨ api = "" ∨ feature = "" ∨ template = Sum.inl "" ∨
      items = PyV.pstr "" then
    ([], Except.error (ApiErr.invalidArgument "A required parameter was blank."))
  else
    let payload : ImportPayload := ⟨template, items⟩
    if response.status ≠ 201 then
      ([payload], Except.error (ApiErr.importFailed response.content))
    else
      ([payload], Except.ok response.content)

/-- The record buffer held by `results_data` (`""` before the first buffered
page). -/
def accData : Option SearchResult → List Rec
  | none => []
  | some rd => rd.data

/-- A non-success HTTP status: outside the 2xx range. -/
def nonSuccess (s : Nat) : Prop := s < 200 ∨ 300 ≤ s

instance (s : Nat) : Decidable (nonSuccess s) := by
  unfold nonSuccess; infer_instance

instance exceptDecEq {ε α : Type} [DecidableEq ε] [DecidableEq α] :
    DecidableEq (Except ε α) := fun a b =>
  match a, b with
  | Except.error e, Except.error f =>
    if h : e = f then isTrue (by rw [h])
    else isFalse (by intro hh; injection hh; contradiction)
  | Except.ok x, Except.ok y =>
    if h : x = y then isTrue (by rw [h])
    else isFalse (by intro hh; injection hh; contradiction)
  | Except.error _, Except.ok _ => isFalse (fun hh => Except.noConfusion hh)
  | Except.ok _, Except.error _ => isFalse (fun hh => Except.noConfusion hh)

/-- A concrete non-final search page: status 200, records `[10, 11]`,
continuation token present, `filtered_total = 3`. -/
def pageMid : SearchResp := ⟨200, "", [10, 11], ⟨some "t", 3, []⟩⟩

/-- A concrete final search page: status 200, record `[20]`, no
continuation token, `filtered_total = 7`. -/
def pageFin : SearchResp := ⟨200, "", [20], ⟨none, 7, []⟩⟩

/-- A concrete list segment of exactly 50 user ids. -/
def seg50 : List String := (List.range 50).map (fun n => "w" ++ toString n)

/-- A concrete list segment of exactly 100 user ids. -/
def seg100 : List String := (List.range 100).map (fun n => "v" ++ toString n)

/-- A concrete list segment of exactly 120 user ids. -/
def seg120 : List String := (List.range 120).map (fun n => "u" ++ toString n)

/-! ## Helper lemmas -/

/-- Running the search loop on buffered pages followed by a final page:
the result is the final page's object with the buffered records appended
after its own and `filtered_total` added to itself. -/
theorem searchLoop_final (url : String) (seg : SegS) (proj : List String)
    (final : SearchResp) (hfs : final.status = 200)
    (hfn : final.meta.next_last_id = none) :
    ∀ (init : List SearchResp) (lastId : String) (acc : Option SearchResult),
      (∀ r ∈ init, r.status = 200 ∧ r.meta.next_last_id.isSome = true) →
      (searchLoop url seg proj lastId acc (init ++ [final])).2 =
        Except.ok ⟨final.data ++ (accData acc ++ (init.map SearchResp.data).flatten),
          { final.meta with
            filtered_total := final.meta.filtered_total + final.meta.filtered_total }⟩ := by
  intro init
  induction init with
  | nil =>
    intro lastId acc _
    cases acc with
    | none => simp [searchLoop, hfs, hfn, accData]
    | some rd => simp [searchLoop, hfs, hfn, accData]
  | cons q init ih =>
    intro lastId acc hq
    obtain ⟨hqs, hqn⟩ := hq q (List.mem_cons_self _ _)
    obtain ⟨nid, hnid⟩ := Option.isSome_iff_exists.mp hqn
    cases acc with
    | none =>
      simp only [List.cons_append, searchLoop, hqs, hnid, List.append_eq]
      rw [if_neg (by decide : ¬ (200 : Nat) ≠ 200)]
      rw [ih nid (some ⟨q.data, q.meta⟩) (fun r hr => hq r (List.mem_cons_of_mem _ hr))]
      simp [accData]
    | some rd =>
      simp only [List.cons_append, searchLoop, hqs, hnid, List.append_eq]
      rw [if_neg (by decide : ¬ (200 : Nat) ≠ 200)]
      rw [ih nid (some ⟨rd.data ++ q.data, rd.meta⟩)
        (fun r hr => hq r (List.mem_cons_of_mem _ hr))]
      simp [accData]

/-- Running the search loop on buffered pages followed by a page with a
non-200 status: one request per page up to and including the failing one,
then the request-failed error carrying the URL and the raw body. -/
theorem searchLoop_abort (url : String) (seg : SegS) (proj : List String)
    (bad : SearchResp) (hbad : bad.status ≠ 200) (rest : List SearchResp) :
    ∀ (init : List SearchResp) (lastId : String) (acc : Option SearchResult),
      (∀ r ∈ init, r.status = 200 ∧ r.meta.next_last_id.isSome = true) →
      (searchLoop url seg proj lastId acc (init ++ bad :: rest)).1.length =
          init.length + 1 ∧
      (searchLoop url seg proj lastId acc (init ++ bad :: rest)).2 =
        Except.error (ApiErr.upstreamRequestFailed url bad.content) := by
  intro init
  induction init with
  | nil =>
    intro lastId acc _
    constructor
    · simp [searchLoop, hbad]
    · simp [searchLoop, hbad]
  | cons q init ih =>
    intro lastId acc hq
    obtain ⟨hqs, hqn⟩ := hq q (List.mem_cons_self _ _)
    obtain ⟨nid, hnid⟩ := Option.isSome_iff_exists.mp hqn
    have ih' := fun a b => ih a b (fun r hr => hq r (List.mem_cons_of_mem _ hr))
    cases acc with
    | none =>
      simp only [List.cons_append, searchLoop, hqs, hnid, List.append_eq]
      rw [if_neg (by decide : ¬ (200 : Nat) ≠ 200)]
      constructor
      · simp [(ih' nid (some ⟨q.data, q.meta⟩)).1]
      · simp [(ih' nid (some ⟨q.data, q.meta⟩)).2]
    | some rd =>
      simp only [List.cons_append, searchLoop, hqs, hnid, List.append_eq]
      rw [if_neg (by decide : ¬ (200 : Nat) ≠ 200)]
      constructor
      · simp [(ih' nid (some ⟨rd.data ++ q.data, rd.meta⟩)).1]
      · simp [(ih' nid (some ⟨rd.data ++ q.data, rd.meta⟩)).2]

/-- A list-mode iteration whose window start already passed the point where
the loop stops issues exactly one more request, whatever the response and
accumulator are (`run` was set to `False` before the POST). -/
theorem dataLoop_list_last_trace (url : String) (tmpl : Tmpl) (ck : String)
    (uw : List (String × String)) (seg : List String) (pos : Nat)
    (acc : Option DataResult) (responses : List DataResp)
    (hstop : seg.length < pos + 50) :
    (dataLoop url tmpl ck uw (DataMode.mlist seg pos) acc responses).1 =
      [create_api_data_payload tmpl (Sum.inr ((seg.drop pos).take 50))
        (PyV.pstr ck) (PyV.pdict uw) (PyV.pdict [])] := by
  have hstop' : decide (seg.length < pos + 50) = true := decide_eq_true hstop
  cases responses with
  | nil => cases acc <;> simp [dataLoop]
  | cons r rest =>
    by_cases hr : r.status = 200
    · cases acc with
      | none => simp [dataLoop, hr, hstop']
      | some base =>
        cases hm : mergeDataPage base r with
        | error e => simp [dataLoop, hr, hm]
        | ok merged => simp [dataLoop, hr, hm, hstop']
    · cases acc <;> simp [dataLoop, hr]

/-- A list-mode iteration receiving a non-200 response aborts with the
request-failed error, before any merge. -/
theorem dataLoop_list_abort (url : String) (tmpl : Tmpl) (ck : String)
    (uw : List (String × String)) (seg : List String) (pos : Nat)
    (acc : Option DataResult) (bad : DataResp) (hbad : bad.status ≠ 200)
    (rest : List DataResp) :
    dataLoop url tmpl ck uw (DataMode.mlist seg pos) acc (bad :: rest) =
      ([create_api_data_payload tmpl (Sum.inr ((seg.drop pos).take 50))
          (PyV.pstr ck) (PyV.pdict uw) (PyV.pdict [])],
        Except.error (ApiErr.upstreamRequestFailed url bad.content)) := by
  cases acc <;> simp [dataLoop, hbad]

/-- A string-mode iteration receiving a non-200 response aborts with the
request-failed error, before any merge. -/
theorem dataLoop_str_abort (url : String) (tmpl : Tmpl) (ck : String)
    (uw : List (String × String)) (seg lastId : String) (acc : Option DataResult)
    (bad : DataResp) (hbad : bad.status ≠ 200) (rest : List DataResp) :
    dataLoop url tmpl ck uw (DataMode.mstr seg lastId) acc (bad :: rest) =
      ([create_api_data_payload tmpl (Sum.inl seg) (PyV.pstr lastId)
          (PyV.pstr ck) (PyV.pdict uw)],
        Except.error (ApiErr.upstreamRequestFailed url bad.content)) := by
  cases acc <;> simp [dataLoop, hbad]

/-- A string-mode iteration with an empty accumulator and a 200 page
carrying a continuation token: the page becomes the base and the loop
continues with the new cursor. -/
theorem dataLoop_str_first (url : String) (tmpl : Tmpl) (ck : String)
    (uw : List (String × String)) (seg lastId : String) (q : DataResp)
    (rest : List DataResp) (hq : q.status = 200) (nid : String)
    (hnid : q.meta.next_last_id = some nid) :
    dataLoop url tmpl ck uw (DataMode.mstr seg lastId) none (q :: rest) =
      (create_api_data_payload tmpl (Sum.inl seg) (PyV.pstr lastId)
          (PyV.pstr ck) (PyV.pdict uw) ::
        (dataLoop url tmpl ck uw (DataMode.mstr seg nid)
          (some ⟨q.data, q.meta⟩) rest).1,
       (dataLoop url tmpl ck uw (DataMode.mstr seg nid)
          (some ⟨q.data, q.meta⟩) rest).2) := by
  simp [dataLoop, hq, hnid]

/-- A string-mode iteration merging a 200 page with a continuation token
into a base that still carries `next_last_id`: the records are appended,
the counts added, and the token deleted. -/
theorem dataLoop_str_merge (url : String) (tmpl : Tmpl) (ck : String)
    (uw : List (String × String)) (seg lastId : String) (base : DataResult)
    (b : String) (hb : base.meta.next_last_id = some b)
    (q : DataResp) (rest : List DataResp) (hq : q.status = 200) (nid : String)
    (hnid : q.meta.next_last_id = some nid) :
    dataLoop url tmpl ck uw (DataMode.mstr seg lastId) (some base) (q :: rest) =
      (create_api_data_payload tmpl (Sum.inl seg) (PyV.pstr lastId)
          (PyV.pstr ck) (PyV.pdict uw) ::
        (dataLoop url tmpl ck uw (DataMode.mstr seg nid)
          (some ⟨base.data ++ q.data,
            ⟨base.meta.count + q.meta.count, none, base.meta.other⟩⟩) rest).1,
       (dataLoop url tmpl ck uw (DataMode.mstr seg nid)
          (some ⟨base.data ++ q.data,
            ⟨base.meta.count + q.meta.count, none, base.meta.other⟩⟩) rest).2) := by
  simp [dataLoop, hq, hnid, mergeDataPage, hb]

/-- A string-mode iteration merging a 200 page into a base whose
`next_last_id` was already deleted raises the `KeyError`. -/
theorem dataLoop_str_keyerror (url : String) (tmpl : Tmpl) (ck : String)
    (uw : List (String × String)) (seg lastId : String) (base : DataResult)
    (hb : base.meta.next_last_id = none) (q : DataResp) (rest : List DataResp)
    (hq : q.status = 200) :
    dataLoop url tmpl ck uw (DataMode.mstr seg lastId) (some base) (q :: rest) =
      ([create_api_data_payload tmpl (Sum.inl seg) (PyV.pstr lastId)
          (PyV.pstr ck) (PyV.pdict uw)],
        Except.error (ApiErr.keyError "next_last_id")) := by
  simp [dataLoop, hq, mergeDataPage, hb]

/-- A list-mode iteration with an empty accumulator, a 200 page, and the
loop not yet flagged to stop: the page becomes the base and the loop
continues with the advanced offset. -/
theorem dataLoop_list_first (url : String) (tmpl : Tmpl) (ck : String)
    (uw : List (String × String)) (seg : List String) (pos : Nat)
    (hgo : ¬ seg.length < pos + 50) (q : DataResp) (rest : List DataResp)
    (hq : q.status = 200) :
    dataLoop url tmpl ck uw (DataMode.mlist seg pos) none (q :: rest) =
      (create_api_data_payload tmpl (Sum.inr ((seg.drop pos).take 50))
          (PyV.pstr ck) (PyV.pdict uw) (PyV.pdict []) ::
        (dataLoop url tmpl ck uw (DataMode.mlist seg (pos + 50))
          (some ⟨q.data, q.meta⟩) rest).1,
       (dataLoop url tmpl ck uw (DataMode.mlist seg (pos + 50))
          (some ⟨q.data, q.meta⟩) rest).2) := by
  have hgo' : decide (seg.length < pos + 50) = false := decide_eq_false hgo
  simp [dataLoop, hq, hgo']

/-- A list-mode iteration merging a 200 page into a base that still carries
`next_last_id`, with the loop not yet flagged to stop: records appended,
counts added, token deleted, loop continues with the advanced offset. -/
theorem dataLoop_list_merge (url : String) (tmpl : Tmpl) (ck : String)
    (uw : List (String × String)) (seg : List String) (pos : Nat)
    (hgo : ¬ seg.length < pos + 50) (base : DataResult) (b : String)
    (hb : base.meta.next_last_id = some b) (q : DataResp)
    (rest : List DataResp) (hq : q.status = 200) :
    dataLoop url tmpl ck uw (DataMode.mlist seg pos) (some base) (q :: rest) =
      (create_api_data_payload tmpl (Sum.inr ((seg.drop pos).take 50))
          (PyV.pstr ck) (PyV.pdict uw) (PyV.pdict []) ::
        (dataLoop url tmpl ck uw (DataMode.mlist seg (pos + 50))
          (some ⟨base.data ++ q.data,
            ⟨base.meta.count + q.meta.count, none, base.meta.other⟩⟩) rest).1,
       (dataLoop url tmpl ck uw (DataMode.mlist seg (pos + 50))
          (some ⟨base.data ++ q.data,
            ⟨base.meta.count + q.meta.count, none, base.meta.other⟩⟩) rest).2) := by
  have hgo' : decide (seg.length < pos + 50) = false := decide_eq_false hgo
  simp [dataLoop, hq, hgo', mergeDataPage, hb]

/-- A list-mode iteration merging a 200 page into a base whose
`next_last_id` was already deleted raises the `KeyError`. -/
theorem dataLoop_list_keyerror (url : String) (tmpl : Tmpl) (ck : String)
    (uw : List (String × String)) (seg : List String) (pos : Nat)
    (base : DataResult) (hb : base.meta.next_last_id = none) (q : DataResp)
    (rest : List DataResp) (hq : q.status = 200) :
    dataLoop url tmpl ck uw (DataMode.mlist seg pos) (some base) (q :: rest) =
      ([create_api_data_payload tmpl (Sum.inr ((seg.drop pos).take 50))
          (PyV.pstr ck) (PyV.pdict uw) (PyV.pdict [])],
        Except.error (ApiErr.keyError "next_last_id")) := by
  simp [dataLoop, hq, mergeDataPage, hb]

/-! ## Claim theorems -/

/-- C1, counterexample: a two-page search export in which page 1 returns
records `[10, 11]` and page 2 (the final page) returns `[20]` merges to
`[20, 10, 11]` — the final page's records come first — which is not the
page-arrival concatenation `[10, 11] ++ [20]`. -/
theorem c1_counterexample :
    (api_user_search "c" "a" "f" (SegS.sstr "s") ["_id"] [pageMid, pageFin]).2 =
      Except.ok ⟨[20, 10, 11], ⟨none, 14, []⟩⟩ ∧
    ([20, 10, 11] : List Rec) ≠ [10, 11] ++ [20] :=
  ⟨rfl, by decide⟩

/-- C1, amended: in a multi-page search export in which every page returns
HTTP 200, the merged record list is the final page's records first, followed
by the records of pages 1 through n-1 in page-arrival order (earlier pages
are buffered in arrival order, then appended after the final page's own
records). -/
theorem c1_amended (client api feature seg : String) (proj : List String)
    (init : List SearchResp) (final : SearchResp)
    (hc : client ≠ "") (ha : api ≠ "") (hf : feature ≠ "") (hs : seg ≠ "")
    (hinit : ∀ r ∈ init, r.status = 200 ∧ r.meta.next_last_id.isSome = true)
    (hfs : final.status = 200) (hfn : final.meta.next_last_id = none) :
    ∃ result,
      (api_user_search client api feature (SegS.sstr seg) proj
          (init ++ [final])).2 = Except.ok result ∧
      result.data = final.data ++ (init.map SearchResp.data).flatten := by
  refine ⟨⟨final.data ++ (init.map SearchResp.data).flatten,
    { final.meta with
      filtered_total := final.meta.filtered_total + final.meta.filtered_total }⟩,
    ?_, rfl⟩
  unfold api_user_search
  rw [if_neg (by simp [hc, ha, hf, hs])]
  have h := searchLoop_final (mkSearchUrl client api) (SegS.sstr seg) proj final
    hfs hfn init "" none hinit
  simpa [accData] using h

/-- Witness for `c1_amended` at a concrete two-page export. -/
theorem c1_amended_witness :
    ∃ result,
      (api_user_search "c" "a" "f" (SegS.sstr "s") ["_id"]
          ([pageMid] ++ [pageFin])).2 = Except.ok result ∧
      result.data = pageFin.data ++ ([pageMid].map SearchResp.data).flatten :=
  c1_amended "c" "a" "f" "s" ["_id"] [pageMid] pageFin
    (by decide) (by decide) (by decide) (by decide) (by decide) rfl rfl

/-- C4: when the response sequence is buffered pages followed by a page
without a continuation token, the result is the final page's response with
the buffered records appended after its own and its `filtered_total` added
to itself (doubled); in particular a single-page response is returned with
its records untouched and only `filtered_total` doubled. -/
theorem c4_final_page (client api feature seg : String) (proj : List String)
    (init : List SearchResp) (final : SearchResp)
    (hc : client ≠ "") (ha : api ≠ "") (hf : feature ≠ "") (hs : seg ≠ "")
    (hinit : ∀ r ∈ init, r.status = 200 ∧ r.meta.next_last_id.isSome = true)
    (hfs : final.status = 200) (hfn : final.meta.next_last_id = none) :
    (api_user_search client api feature (SegS.sstr seg) proj
        (init ++ [final])).2 =
      Except.ok ⟨final.data ++ (init.map SearchResp.data).flatten,
        { final.meta with
          filtered_total := final.meta.filtered_total + final.meta.filtered_total }⟩ ∧
    (api_user_search client api feature (SegS.sstr seg) proj [final]).2 =
      Except.ok ⟨final.data,
        { final.meta with
          filtered_total := final.meta.filtered_total + final.meta.filtered_total }⟩ := by
  constructor
  · unfold api_user_search
    rw [if_neg (by simp [hc, ha, hf, hs])]
    have h := searchLoop_final (mkSearchUrl client api) (SegS.sstr seg) proj final
      hfs hfn init "" none hinit
    simpa [accData] using h
  · unfold api_user_search
    rw [if_neg (by simp [hc, ha, hf, hs])]
    have h := searchLoop_final (mkSearchUrl client api) (SegS.sstr seg) proj final
      hfs hfn [] "" none (by intro r hr; cases hr)
    simpa [accData] using h

/-- Witness for `c4_final_page` at a concrete two-page export. -/
theorem c4_final_page_witness :
    (api_user_search "c" "a" "f" (SegS.sstr "s") ["_id"]
        ([pageMid] ++ [pageFin])).2 =
      Except.ok ⟨[20, 10, 11], ⟨none, 14, []⟩⟩ ∧
    (api_user_search "c" "a" "f" (SegS.sstr "s") ["_id"] [pageFin]).2 =
      Except.ok ⟨[20], ⟨none, 14, []⟩⟩ :=
  c4_final_page "c" "a" "f" "s" ["_id"] [pageMid] pageFin
    (by decide) (by decide) (by decide) (by decide) (by decide) rfl rfl

/-- C5: in a multi-page search export in which every page returns HTTP 200,
the merged record list is a permutation of the concatenation of all pages'
records — every record of every page appears exactly once — and its length
equals the sum of the per-page record counts. -/
theorem c5_all_pages (client api feature seg : String) (proj : List String)
    (init : List SearchResp) (final : SearchResp)
    (hc : client ≠ "") (ha : api ≠ "") (hf : feature ≠ "") (hs : seg ≠ "")
    (hinit : ∀ r ∈ init, r.status = 200 ∧ r.meta.next_last_id.isSome = true)
    (hfs : final.status = 200) (hfn : final.meta.next_last_id = none) :
    ∃ result,
      (api_user_search client api feature (SegS.sstr seg) proj
          (init ++ [final])).2 = Except.ok result ∧
      result.data.Perm (((init ++ [final]).map SearchResp.data).flatten) ∧
      result.data.length =
        (((init ++ [final]).map SearchResp.data).map List.length).sum := by
  have hflat : ((init ++ [final]).map SearchResp.data).flatten
      = (init.map SearchResp.data).flatten ++ final.data := by
    simp
  have hperm : (final.data ++ (init.map SearchResp.data).flatten).Perm
      (((init ++ [final]).map SearchResp.data).flatten) := by
    rw [hflat]; exact List.perm_append_comm
  refine ⟨⟨final.data ++ (init.map SearchResp.data).flatten,
    { final.meta with
      filtered_total := final.meta.filtered_total + final.meta.filtered_total }⟩,
    ?_, hperm, ?_⟩
  · unfold api_user_search
    rw [if_neg (by simp [hc, ha, hf, hs])]
    have h := searchLoop_final (mkSearchUrl client api) (SegS.sstr seg) proj final
      hfs hfn init "" none hinit
    simpa [accData] using h
  · calc (final.data ++ (init.map SearchResp.data).flatten).length
        = (((init ++ [final]).map SearchResp.data).flatten).length :=
          hperm.length_eq
      _ = (((init ++ [final]).map SearchResp.data).map List.length).sum :=
          List.length_flatten _

/-- Witness for `c5_all_pages` at a concrete two-page export. -/
theorem c5_all_pages_witness :
    ∃ result,
      (api_user_search "c" "a" "f" (SegS.sstr "s") ["_id"]
          ([pageMid] ++ [pageFin])).2 = Except.ok result ∧
      result.data.Perm ((([pageMid] ++ [pageFin]).map SearchResp.data).flatten) ∧
      result.data.length =
        ((([pageMid] ++ [pageFin]).map SearchResp.data).map List.length).sum :=
  c5_all_pages "c" "a" "f" "s" ["_id"] [pageMid] pageFin
    (by decide) (by decide) (by decide) (by decide) (by decide) rfl rfl

/-- C2, code-bug witness: in a three-page string-segment data export in
which every page returns HTTP 200 (pages 1 and 2 carry a continuation
token, page 3 does not), three POSTs are issued but the function raises
`KeyError` on the third page's merge — `next_last_id` was deleted during
the second page's merge and never restored — instead of returning the
merged result the claim describes.  At two pages the described merge
policy does hold: appended records, summed counts, no `next_last_id`. -/
theorem c2_merge_keyerror :
    ((api_data_request "c" "a" "f" (SegD.dstr "s") (Sum.inl "t") "" []
        [⟨200, "", [1], ⟨1, some "x", []⟩⟩, ⟨200, "", [2], ⟨1, some "y", []⟩⟩,
         ⟨200, "", [3], ⟨1, none, []⟩⟩]).1.length = 3 ∧
      (api_data_request "c" "a" "f" (SegD.dstr "s") (Sum.inl "t") "" []
        [⟨200, "", [1], ⟨1, some "x", []⟩⟩, ⟨200, "", [2], ⟨1, some "y", []⟩⟩,
         ⟨200, "", [3], ⟨1, none, []⟩⟩]).2 =
        Except.error (ApiErr.keyError "next_last_id")) ∧
    (api_data_request "c" "a" "f" (SegD.dstr "s") (Sum.inl "t") "" []
        [⟨200, "", [1], ⟨1, some "x", []⟩⟩, ⟨200, "", [3], ⟨1, none, []⟩⟩]).2 =
      Except.ok ⟨[1, 3], ⟨2, none, []⟩⟩ :=
  ⟨⟨rfl, rfl⟩, rfl⟩

/-- C3, counterexample: an empty string segment (other arguments
non-blank) does not return the empty result — it is caught by the
blank-parameter check and the call fails with `InvalidArgument`. -/
theorem c3_counterexample :
    api_data_request "c" "a" "f" (SegD.dstr "") (Sum.inl "t") "" [] [] =
      ([], Except.error (ApiErr.invalidArgument "A required parameter was blank.")) ∧
    (api_data_request "c" "a" "f" (SegD.dstr "") (Sum.inl "t") "" [] []).2 ≠
      Except.ok ⟨[], ⟨0, none, []⟩⟩ :=
  ⟨rfl, by decide⟩

/-- C3, amended: an empty LIST segment (other arguments non-blank) returns
the empty result `{data: [], meta: {count: 0}}` with zero network calls; an
empty STRING segment instead fails with `InvalidArgument` before any
network call, because the blank-parameter check precedes (and makes
unreachable) the empty-string half of the short-circuit. -/
theorem c3_empty_list (client api feature : String) (tmpl : Tmpl) (ck : String)
    (uw : List (String × String)) (responses : List DataResp)
    (hc : client ≠ "") (ha : api ≠ "") (hf : feature ≠ "")
    (ht : tmpl ≠ Sum.inl "") :
    api_data_request client api feature (SegD.dlist []) tmpl ck uw responses =
      ([], Except.ok ⟨[], ⟨0, none, []⟩⟩) := by
  unfold api_data_request
  rw [if_neg (by simp [hc, ha, hf, ht])]
  simp

/-- Witness for `c3_empty_list` at concrete arguments. -/
theorem c3_empty_list_witness :
    api_data_request "c" "a" "f" (SegD.dlist []) (Sum.inl "t") "" []
        [⟨500, "boom", [], ⟨0, none, []⟩⟩] =
      ([], Except.ok ⟨[], ⟨0, none, []⟩⟩) :=
  c3_empty_list "c" "a" "f" (Sum.inl "t") "" [] [⟨500, "boom", [], ⟨0, none, []⟩⟩]
    (by decide) (by decide) (by decide) (by decide)

set_option maxRecDepth 40000 in
/-- C6, code-bug witness: for the 120-identifier list segment `seg120` with
every response at HTTP 200, the claimed window schedule is only realised
when the first response happens to carry `next_last_id` (second half: three
POSTs with windows `[0:50]`, `[50:100]`, `[100:120]`, yet the call still
ends in `KeyError`).  When the responses carry no `next_last_id` (first
half), the second page's merge raises `KeyError` and only two POSTs are
issued — the third window is never requested. -/
theorem c6_window_schedule :
    ((api_data_request "c" "a" "f" (SegD.dlist seg120) (Sum.inl "t") "" []
        [⟨200, "", [1], ⟨50, none, []⟩⟩, ⟨200, "", [2], ⟨50, none, []⟩⟩,
         ⟨200, "", [3], ⟨20, none, []⟩⟩]).1.map DataPayload.users =
      [seg120.take 50, (seg120.drop 50).take 50] ∧
      (api_data_request "c" "a" "f" (SegD.dlist seg120) (Sum.inl "t") "" []
        [⟨200, "", [1], ⟨50, none, []⟩⟩, ⟨200, "", [2], ⟨50, none, []⟩⟩,
         ⟨200, "", [3], ⟨20, none, []⟩⟩]).2 =
        Except.error (ApiErr.keyError "next_last_id")) ∧
    ((api_data_request "c" "a" "f" (SegD.dlist seg120) (Sum.inl "t") "" []
        [⟨200, "", [1], ⟨50, some "x", []⟩⟩, ⟨200, "", [2], ⟨50, some "y", []⟩⟩,
         ⟨200, "", [3], ⟨20, some "z", []⟩⟩]).1.map DataPayload.users =
      [seg120.take 50, (seg120.drop 50).take 50, (seg120.drop 100).take 50] ∧
      (api_data_request "c" "a" "f" (SegD.dlist seg120) (Sum.inl "t") "" []
        [⟨200, "", [1], ⟨50, some "x", []⟩⟩, ⟨200, "", [2], ⟨50, some "y", []⟩⟩,
         ⟨200, "", [3], ⟨20, some "z", []⟩⟩]).2 =
        Except.error (ApiErr.keyError "next_last_id")) :=
  ⟨⟨rfl, rfl⟩, ⟨rfl, rfl⟩⟩

/-- C7: a non-success response aborts the whole export with the
request-failed error carrying the URL and the raw body, with no further
request after the failing one and no result.  Part 1: search export, any
number of successful pages before the failure.  Part 2: string-segment data
export for every reachable prefix (at most two all-200 token-carrying pages
can precede any further request).  Part 3: why longer prefixes are
unreachable — three successful token-carrying pages already abort the call
with `KeyError` after exactly three requests, so no page after the third is
ever fetched.  Parts 4-6: list-segment data export with the failure on the
second window (any list long enough for a second window to be requested),
on the first window (any non-empty list), and on the third window (a list
of at least 100 ids whose first page carries `next_last_id`, so that the
second merge succeeds).  Part 7: why later windows are unreachable in list
mode too — three successful pages, the first token-carrying, already abort
the call with `KeyError` after exactly three requests. -/
theorem c7_abort_on_failure :
    (∀ (client api feature seg : String) (proj : List String)
        (init : List SearchResp) (bad : SearchResp) (rest : List SearchResp),
      client ≠ "" → api ≠ "" → feature ≠ "" → seg ≠ "" →
      (∀ r ∈ init, r.status = 200 ∧ r.meta.next_last_id.isSome = true) →
      nonSuccess bad.status →
      (api_user_search client api feature (SegS.sstr seg) proj
          (init ++ bad :: rest)).1.length = init.length + 1 ∧
      (api_user_search client api feature (SegS.sstr seg) proj
          (init ++ bad :: rest)).2 =
        Except.error (ApiErr.upstreamRequestFailed (mkSearchUrl client api)
          bad.content)) ∧
    (∀ (client api feature seg : String) (tmpl : Tmpl) (ck : String)
        (uw : List (String × String)) (init : List DataResp) (bad : DataResp)
        (rest : List DataResp),
      client ≠ "" → api ≠ "" → feature ≠ "" → seg ≠ "" → tmpl ≠ Sum.inl "" →
      init.length ≤ 2 →
      (∀ r ∈ init, r.status = 200 ∧ r.meta.next_last_id.isSome = true) →
      nonSuccess bad.status →
      (api_data_request client api feature (SegD.dstr seg) tmpl ck uw
          (init ++ bad :: rest)).1.length = init.length + 1 ∧
      (api_data_request client api feature (SegD.dstr seg) tmpl ck uw
          (init ++ bad :: rest)).2 =
        Except.error (ApiErr.upstreamRequestFailed (mkDataUrl client api)
          bad.content)) ∧
    (∀ (client api feature seg : String) (tmpl : Tmpl) (ck : String)
        (uw : List (String × String)) (q1 q2 q3 : DataResp)
        (more : List DataResp),
      client ≠ "" → api ≠ "" → feature ≠ "" → seg ≠ "" → tmpl ≠ Sum.inl "" →
      (∀ r ∈ [q1, q2, q3], r.status = 200 ∧ r.meta.next_last_id.isSome = true) →
      (api_data_request client api feature (SegD.dstr seg) tmpl ck uw
          (q1 :: q2 :: q3 :: more)).1.length = 3 ∧
      (api_data_request client api feature (SegD.dstr seg) tmpl ck uw
          (q1 :: q2 :: q3 :: more)).2 =
        Except.error (ApiErr.keyError "next_last_id")) ∧
    (∀ (client api feature : String) (tmpl : Tmpl) (ck : String)
        (uw : List (String × String)) (seg : List String) (q1 bad : DataResp)
        (rest : List DataResp),
      client ≠ "" → api ≠ "" → feature ≠ "" → tmpl ≠ Sum.inl "" →
      50 ≤ seg.length → q1.status = 200 → nonSuccess bad.status →
      (api_data_request client api feature (SegD.dlist seg) tmpl ck uw
          (q1 :: bad :: rest)).1.length = 2 ∧
      (api_data_request client api feature (SegD.dlist seg) tmpl ck uw
          (q1 :: bad :: rest)).2 =
        Except.error (ApiErr.upstreamRequestFailed (mkDataUrl client api)
          bad.content)) ∧
    (∀ (client api feature : String) (tmpl : Tmpl) (ck : String)
        (uw : List (String × String)) (seg : List String) (bad : DataResp)
        (rest : List DataResp),
      client ≠ "" → api ≠ "" → feature ≠ "" → tmpl ≠ Sum.inl "" →
      seg ≠ [] → nonSuccess bad.status →
      (api_data_request client api feature (SegD.dlist seg) tmpl ck uw
          (bad :: rest)).1.length = 1 ∧
      (api_data_request client api feature (SegD.dlist seg) tmpl ck uw
          (bad :: rest)).2 =
        Except.error (ApiErr.upstreamRequestFailed (mkDataUrl client api)
          bad.content)) ∧
    (∀ (client api feature : String) (tmpl : Tmpl) (ck : String)
        (uw : List (String × String)) (seg : List String) (q1 q2 bad : DataResp)
        (rest : List DataResp),
      client ≠ "" → api ≠ "" → feature ≠ "" → tmpl ≠ Sum.inl "" →
      100 ≤ seg.length → q1.status = 200 →
      q1.meta.next_last_id.isSome = true → q2.status = 200 →
      nonSuccess bad.status →
      (api_data_request client api feature (SegD.dlist seg) tmpl ck uw
          (q1 :: q2 :: bad :: rest)).1.length = 3 ∧
      (api_data_request client api feature (SegD.dlist seg) tmpl ck uw
          (q1 :: q2 :: bad :: rest)).2 =
        Except.error (ApiErr.upstreamRequestFailed (mkDataUrl client api)
          bad.content)) ∧
    (∀ (client api feature : String) (tmpl : Tmpl) (ck : String)
        (uw : List (String × String)) (seg : List String) (q1 q2 q3 : DataResp)
        (more : List DataResp),
      client ≠ "" → api ≠ "" → feature ≠ "" → tmpl ≠ Sum.inl "" →
      100 ≤ seg.length → q1.status = 200 →
      q1.meta.next_last_id.isSome = true → q2.status = 200 → q3.status = 200 →
      (api_data_request client api feature (SegD.dlist seg) tmpl ck uw
          (q1 :: q2 :: q3 :: more)).1.length = 3 ∧
      (api_data_request client api feature (SegD.dlist seg) tmpl ck uw
          (q1 :: q2 :: q3 :: more)).2 =
        Except.error (ApiErr.keyError "next_last_id")) := by
  refine ⟨?_, ?_, ?_, ?_, ?_, ?_, ?_⟩
  · intro client api feature seg proj init bad rest hc ha hf hs hinit hbs
    have hbad : bad.status ≠ 200 := by unfold nonSuccess at hbs; omega
    unfold api_user_search
    rw [if_neg (by simp [hc, ha, hf, hs])]
    exact searchLoop_abort (mkSearchUrl client api) (SegS.sstr seg) proj bad hbad
      rest init "" none hinit
  · intro client api feature seg tmpl ck uw init bad rest hc ha hf hs ht hlen
      hinit hbs
    have hbad : bad.status ≠ 200 := by unfold nonSuccess at hbs; omega
    unfold api_data_request
    rw [if_neg (by simp [hc, ha, hf, hs, ht])]
    simp only []
    rw [if_neg hs]
    match init, hlen with
    | [], _ =>
      rw [List.nil_append,
        dataLoop_str_abort (mkDataUrl client api) tmpl ck uw seg "" none bad hbad rest]
      simp
    | [q1], _ =>
      obtain ⟨hq1, hn1⟩ := hinit q1 (by simp)
      obtain ⟨n1, hn1'⟩ := Option.isSome_iff_exists.mp hn1
      rw [List.cons_append, List.nil_append,
        dataLoop_str_first (mkDataUrl client api) tmpl ck uw seg "" q1
          (bad :: rest) hq1 n1 hn1',
        dataLoop_str_abort (mkDataUrl client api) tmpl ck uw seg n1
          (some ⟨q1.data, q1.meta⟩) bad hbad rest]
      simp
    | [q1, q2], _ =>
      obtain ⟨hq1, hn1⟩ := hinit q1 (by simp)
      obtain ⟨n1, hn1'⟩ := Option.isSome_iff_exists.mp hn1
      obtain ⟨hq2, hn2⟩ := hinit q2 (by simp)
      obtain ⟨n2, hn2'⟩ := Option.isSome_iff_exists.mp hn2
      rw [List.cons_append, List.cons_append, List.nil_append,
        dataLoop_str_first (mkDataUrl client api) tmpl ck uw seg "" q1
          (q2 :: bad :: rest) hq1 n1 hn1',
        dataLoop_str_merge (mkDataUrl client api) tmpl ck uw seg n1
          ⟨q1.data, q1.meta⟩ n1 hn1' q2 (bad :: rest) hq2 n2 hn2',
        dataLoop_str_abort (mkDataUrl client api) tmpl ck uw seg n2 _ bad hbad rest]
      simp
    | q1 :: q2 :: q3 :: t, hlen => simp at hlen
  · intro client api feature seg tmpl ck uw q1 q2 q3 more hc ha hf hs ht hall
    obtain ⟨hq1, hn1⟩ := hall q1 (by simp)
    obtain ⟨n1, hn1'⟩ := Option.isSome_iff_exists.mp hn1
    obtain ⟨hq2, hn2⟩ := hall q2 (by simp)
    obtain ⟨n2, hn2'⟩ := Option.isSome_iff_exists.mp hn2
    obtain ⟨hq3, hn3⟩ := hall q3 (by simp)
    unfold api_data_request
    rw [if_neg (by simp [hc, ha, hf, hs, ht])]
    simp only []
    rw [if_neg hs]
    rw [dataLoop_str_first (mkDataUrl client api) tmpl ck uw seg "" q1
        (q2 :: q3 :: more) hq1 n1 hn1',
      dataLoop_str_merge (mkDataUrl client api) tmpl ck uw seg n1
        ⟨q1.data, q1.meta⟩ n1 hn1' q2 (q3 :: more) hq2 n2 hn2',
      dataLoop_str_keyerror (mkDataUrl client api) tmpl ck uw seg n2
        ⟨q1.data ++ q2.data, ⟨q1.meta.count + q2.meta.count, none, q1.meta.other⟩⟩
        rfl q3 more hq3]
    simp
  · intro client api feature tmpl ck uw seg q1 bad rest hc ha hf ht hlen hq1 hbs
    have hbad : bad.status ≠ 200 := by unfold nonSuccess at hbs; omega
    have hne : seg ≠ [] := by
      intro h; rw [h] at hlen; simp at hlen
    unfold api_data_request
    rw [if_neg (by simp [hc, ha, hf, ht])]
    simp only []
    rw [if_neg hne]
    have h1 : ¬ (seg.length < 0 + 50) := by omega
    have h1' : decide (seg.length < 0 + 50) = false := decide_eq_false h1
    simp only [dataLoop, hq1, h1', List.drop_zero]
    rw [if_neg (by decide : ¬ (200 : Nat) ≠ 200)]
    rw [if_neg (by decide : ¬ false = true)]
    simp [hbad]
  · intro client api feature tmpl ck uw seg bad rest hc ha hf ht hne hbs
    have hbad : bad.status ≠ 200 := by unfold nonSuccess at hbs; omega
    unfold api_data_request
    rw [if_neg (by simp [hc, ha, hf, ht])]
    simp only []
    rw [if_neg hne]
    rw [dataLoop_list_abort (mkDataUrl client api) tmpl ck uw seg 0 none bad
      hbad rest]
    simp
  · intro client api feature tmpl ck uw seg q1 q2 bad rest hc ha hf ht hlen
      hq1 hn1 hq2 hbs
    obtain ⟨n1, hn1'⟩ := Option.isSome_iff_exists.mp hn1
    have hbad : bad.status ≠ 200 := by unfold nonSuccess at hbs; omega
    have hne : seg ≠ [] := by
      intro h; rw [h] at hlen; simp at hlen
    unfold api_data_request
    rw [if_neg (by simp [hc, ha, hf, ht])]
    simp only []
    rw [if_neg hne]
    rw [dataLoop_list_first (mkDataUrl client api) tmpl ck uw seg 0 (by omega)
        q1 (q2 :: bad :: rest) hq1,
      dataLoop_list_merge (mkDataUrl client api) tmpl ck uw seg (0 + 50)
        (by omega) ⟨q1.data, q1.meta⟩ n1 hn1' q2 (bad :: rest) hq2,
      dataLoop_list_abort (mkDataUrl client api) tmpl ck uw seg (0 + 50 + 50) _
        bad hbad rest]
    simp
  · intro client api feature tmpl ck uw seg q1 q2 q3 more hc ha hf ht hlen
      hq1 hn1 hq2 hq3
    obtain ⟨n1, hn1'⟩ := Option.isSome_iff_exists.mp hn1
    have hne : seg ≠ [] := by
      intro h; rw [h] at hlen; simp at hlen
    unfold api_data_request
    rw [if_neg (by simp [hc, ha, hf, ht])]
    simp only []
    rw [if_neg hne]
    rw [dataLoop_list_first (mkDataUrl client api) tmpl ck uw seg 0 (by omega)
        q1 (q2 :: q3 :: more) hq1,
      dataLoop_list_merge (mkDataUrl client api) tmpl ck uw seg (0 + 50)
        (by omega) ⟨q1.data, q1.meta⟩ n1 hn1' q2 (q3 :: more) hq2,
      dataLoop_list_keyerror (mkDataUrl client api) tmpl ck uw seg (0 + 50 + 50)
        ⟨q1.data ++ q2.data, ⟨q1.meta.count + q2.meta.count, none, q1.meta.other⟩⟩
        rfl q3 more hq3]
    simp

/-- Witness for `c7_abort_on_failure` (part 1) at a concrete two-page
search export whose second page returns HTTP 500. -/
theorem c7_abort_on_failure_witness :
    (api_user_search "c" "a" "f" (SegS.sstr "s") ["_id"]
        ([pageMid] ++ ⟨500, "boom", [], ⟨none, 0, []⟩⟩ :: [])).1.length =
      ([pageMid] : List SearchResp).length + 1 ∧
    (api_user_search "c" "a" "f" (SegS.sstr "s") ["_id"]
        ([pageMid] ++ ⟨500, "boom", [], ⟨none, 0, []⟩⟩ :: [])).2 =
      Except.error (ApiErr.upstreamRequestFailed (mkSearchUrl "c" "a") "boom") :=
  c7_abort_on_failure.1 "c" "a" "f" "s" ["_id"] [pageMid]
    ⟨500, "boom", [], ⟨none, 0, []⟩⟩ []
    (by decide) (by decide) (by decide) (by decide) (by decide) (by decide)

/-- C8: blank arguments make `api_user_search` and `api_data_request` fail
with the blank-parameter `InvalidArgument` error, and a segment that is
neither a string nor a list makes `api_data_request` fail with the
invalid-segment `InvalidArgument` error; in every case the request trace is
empty — the failure precedes any network call. -/
theorem c8_validation :
    (∀ (client api feature : String) (seg : SegS) (proj : List String)
        (responses : List SearchResp),
      (client = "" ∨ api = "" ∨ feature = "" ∨ seg = SegS.sstr "") →
      api_user_search client api feature seg proj responses =
        ([], Except.error (ApiErr.invalidArgument "A required parameter was blank."))) ∧
    (∀ (client api feature : String) (seg : SegD) (tmpl : Tmpl) (ck : String)
        (uw : List (String × String)) (responses : List DataResp),
      (client = "" ∨ api = "" ∨ feature = "" ∨ seg = SegD.dstr "" ∨
        tmpl = Sum.inl "") →
      api_data_request client api feature seg tmpl ck uw responses =
        ([], Except.error (ApiErr.invalidArgument "A required parameter was blank."))) ∧
    (∀ (client api feature : String) (tmpl : Tmpl) (ck : String)
        (uw : List (String × String)) (responses : List DataResp),
      client ≠ "" → api ≠ "" → feature ≠ "" → tmpl ≠ Sum.inl "" →
      api_data_request client api feature SegD.dother tmpl ck uw responses =
        ([], Except.error (ApiErr.invalidArgument "Not a valid segment or list"))) := by
  refine ⟨?_, ?_, ?_⟩
  · intro client api feature seg proj responses h
    unfold api_user_search
    rw [if_pos h]
  · intro client api feature seg tmpl ck uw responses h
    unfold api_data_request
    rw [if_pos h]
  · intro client api feature tmpl ck uw responses hc ha hf ht
    unfold api_data_request
    rw [if_neg (by simp [hc, ha, hf, ht])]

/-- Witness for `c8_validation` at concrete arguments: a blank client for
the search export, and a dict segment for the data export. -/
theorem c8_validation_witness :
    api_user_search "" "a" "f" (SegS.sstr "s") ["_id"] [] =
      ([], Except.error (ApiErr.invalidArgument "A required parameter was blank.")) ∧
    api_data_request "c" "a" "f" SegD.dother (Sum.inl "t") "" [] [] =
      ([], Except.error (ApiErr.invalidArgument "Not a valid segment or list")) :=
  ⟨c8_validation.1 "" "a" "f" (SegS.sstr "s") ["_id"] [] (Or.inl rfl),
   c8_validation.2.2 "c" "a" "f" (Sum.inl "t") "" [] []
     (by decide) (by decide) (by decide) (by decide)⟩

/-- C9: with non-blank arguments, `api_data_import` issues exactly one
POST; an HTTP 201 response yields the raw response body unparsed, and any
other status yields the import-failed error carrying the raw body, with no
result. -/
theorem c9_import (client api feature : String) (tmpl : Tmpl) (items : PyV)
    (resp : ImportResp)
    (hc : client ≠ "") (ha : api ≠ "") (hf : feature ≠ "")
    (ht : tmpl ≠ Sum.inl "") (hi : items ≠ PyV.pstr "") :
    (api_data_import client api feature tmpl items resp).1 = [⟨tmpl, items⟩] ∧
    (resp.status = 201 →
      (api_data_import client api feature tmpl items resp).2 =
        Except.ok resp.content) ∧
    (resp.status ≠ 201 →
      (api_data_import client api feature tmpl items resp).2 =
        Except.error (ApiErr.importFailed resp.content)) := by
  unfold api_data_import
  rw [if_neg (by simp [hc, ha, hf, ht, hi])]
  refine ⟨?_, ?_, ?_⟩
  · by_cases h : resp.status = 201 <;> simp [h]
  · intro h; simp [h]
  · intro h; simp [h]

/-- Witness for `c9_import` at a 201 response and at a 500 response. -/
theorem c9_import_witness :
    ((api_data_import "c" "a" "f" (Sum.inl "t") (PyV.pdict []) ⟨201, "raw"⟩).1 =
      [⟨Sum.inl "t", PyV.pdict []⟩] ∧
    ((ImportResp.mk 201 "raw").status = 201 →
      (api_data_import "c" "a" "f" (Sum.inl "t") (PyV.pdict []) ⟨201, "raw"⟩).2 =
        Except.ok (ImportResp.mk 201 "raw").content) ∧
    ((ImportResp.mk 201 "raw").status ≠ 201 →
      (api_data_import "c" "a" "f" (Sum.inl "t") (PyV.pdict []) ⟨201, "raw"⟩).2 =
        Except.error (ApiErr.importFailed (ImportResp.mk 201 "raw").content))) ∧
    ((api_data_import "c" "a" "f" (Sum.inl "t") (PyV.pdict []) ⟨500, "boom"⟩).2 =
      Except.error (ApiErr.importFailed "boom")) :=
  ⟨c9_import "c" "a" "f" (Sum.inl "t") (PyV.pdict []) ⟨201, "raw"⟩
     (by decide) (by decide) (by decide) (by decide) (by decide),
   (c9_import "c" "a" "f" (Sum.inl "t") (PyV.pdict []) ⟨500, "boom"⟩
     (by decide) (by decide) (by decide) (by decide) (by decide)).2.2 (by decide)⟩

set_option maxRecDepth 40000 in
/-- C10, counterexample: for the 100-identifier list segment `seg100`
(non-empty, length an exact multiple of 50) with all-200 responses carrying
no `next_last_id`, the trailing empty-window POST is never issued: the
second page's merge raises `KeyError` first, so only the two non-empty
windows `[0:50]` and `[50:100]` are ever requested. -/
theorem c10_counterexample :
    seg100.length = 100 ∧ seg100 ≠ [] ∧
    (api_data_request "c" "a" "f" (SegD.dlist seg100) (Sum.inl "t") "" []
        [⟨200, "", [1], ⟨50, none, []⟩⟩, ⟨200, "", [2], ⟨50, none, []⟩⟩,
         ⟨200, "", [3], ⟨0, none, []⟩⟩]).1.map DataPayload.users =
      [seg100.take 50, (seg100.drop 50).take 50] ∧
    ¬ ([] ∈ (api_data_request "c" "a" "f" (SegD.dlist seg100) (Sum.inl "t") "" []
        [⟨200, "", [1], ⟨50, none, []⟩⟩, ⟨200, "", [2], ⟨50, none, []⟩⟩,
         ⟨200, "", [3], ⟨0, none, []⟩⟩]).1.map DataPayload.users) :=
  ⟨rfl, by decide, rfl, by decide⟩

/-- C10, amended: a list segment of exactly 50 identifiers whose first
response has status 200 produces exactly two POSTs, the second carrying an
empty `users` window — the loop stops only once the window start strictly
exceeds the list length, and the trailing request is issued before the
second page's merge can raise.  For longer multiples of 50 the trailing
empty-window request is not guaranteed (see the counterexample). -/
theorem c10_trailing_window (client api feature : String) (tmpl : Tmpl)
    (ck : String) (uw : List (String × String)) (seg : List String)
    (r1 : DataResp) (rest : List DataResp)
    (hc : client ≠ "") (ha : api ≠ "") (hf : feature ≠ "")
    (ht : tmpl ≠ Sum.inl "") (hlen : seg.length = 50) (hr1 : r1.status = 200) :
    (api_data_request client api feature (SegD.dlist seg) tmpl ck uw
        (r1 :: rest)).1.map DataPayload.users = [seg, []] := by
  have hne : seg ≠ [] := by
    intro h; rw [h] at hlen; simp at hlen
  unfold api_data_request
  rw [if_neg (by simp [hc, ha, hf, ht])]
  simp only [hne, if_false]
  have h1 : ¬ (seg.length < 0 + 50) := by omega
  have h1' : decide (seg.length < 0 + 50) = false := decide_eq_false h1
  have h2 : seg.length < 50 + 50 := by omega
  have htr := dataLoop_list_last_trace (mkDataUrl client api) tmpl ck uw seg 50
    (some ⟨r1.data, r1.meta⟩) rest h2
  simp only [dataLoop, hr1, h1', List.drop_zero]
  rw [if_neg (by decide : ¬ (200 : Nat) ≠ 200)]
  rw [if_neg (by decide : ¬ false = true)]
  simp only [Nat.zero_add]
  rw [htr]
  simp [create_api_data_payload, List.take_of_length_le (le_of_eq hlen),
    List.drop_eq_nil_of_le (le_of_eq hlen)]

/-- Witness for `c10_trailing_window` at the concrete 50-identifier
segment `seg50`. -/
theorem c10_trailing_window_witness :
    (api_data_request "c" "a" "f" (SegD.dlist seg50) (Sum.inl "t") "" []
        (⟨200, "", [1], ⟨50, none, []⟩⟩ :: [⟨200, "", [2], ⟨0, none, []⟩⟩])).1.map
      DataPayload.users = [seg50, []] :=
  c10_trailing_window "c" "a" "f" (Sum.inl "t") "" [] seg50
    ⟨200, "", [1], ⟨50, none, []⟩⟩ [⟨200, "", [2], ⟨0, none, []⟩⟩]
    (by decide) (by decide) (by decide) (by decide) rfl rfl

end Element451
